import Mathlib

/-!
Shallow embedding of the research orchestration engine of
`backend/src/agent` (graph.py, state.py, tools_and_schemas.py).

Conventions used throughout:
* Python `None` is `Option.none`; a `dict.get(k, d)` default is folded in
  with `Option.getD` where the code always defaults.
* LangGraph channel merge rules come from the `Annotated[..., operator.add]`
  reducers in state.py: such fields merge by list concatenation
  (`old ++ new`), `messages` merges by `add_messages` which appends fresh
  messages, and unannotated fields merge by overwrite.  A key absent from a
  node's returned update leaves its channel unchanged.
* An external call that can raise is passed in as an `Except String α`
  outcome; a node that does not catch it returns `Except` itself, a node
  that catches it returns a plain update.
* Machine strings are Lean `String`s; the Python operators used by the code
  (`in`, `str.replace`, truthiness of strings/lists) are embedded below as
  executable functions on `List Char` with the same semantics (left-to-right
  non-overlapping replacement of every occurrence; the empty-pattern case,
  never exercised by the code, is taken as the identity).
-/

/-- A citation record as produced by the web worker and consumed by
`finalize_answer_node` (graph.py uses `source["short_url"]` and
`source["value"]`; the defensive `isinstance`/key checks always succeed on
these records). -/
structure Source where
  short_url : String
  value : String
deriving DecidableEq

/-- One entry of `uploaded_pdf_info`: a `{"name": ..., "path": ...}` dict;
either key may be absent. -/
structure PdfInfo where
  name : Option String
  path : Option String
deriving DecidableEq

/-- One follow-up query dict from the `Reflection` schema: `item.get("type",
"web")` and `item.get("query")`.  A missing or `None` query behaves exactly
like `""` under the code's truthiness tests, so it is embedded as `""`. -/
structure FollowUpQuery where
  type : Option String
  query : String
deriving DecidableEq

/-- The structured verdict returned by the reflection model call
(`Reflection` in tools_and_schemas.py). -/
structure ReflectionResult where
  is_sufficient : Bool
  knowledge_gap : String
  follow_up_queries : List FollowUpQuery
deriving DecidableEq

/-- The session state: `OverallState` of state.py, together with the
channels written by node updates that state.py declares on the node output
types (`query_list` from `QueryGenerationState`, unannotated, hence
overwrite-merged; `is_sufficient`, `knowledge_gap`, `follow_up_queries`
(`operator.add`), `research_loop_count`, `number_of_ran_queries` from
`ReflectionState`).  `messages` keeps only the content strings of the
`AIMessage`/human messages, which is all the embedded logic reads.
`research_loop_count` is read everywhere as `state.get(..., 0)`, so a plain
`Nat` with default `0` is faithful; `max_research_loops` is read as
`state.get("max_research_loops", configurable.max_research_loops)`, so it
stays an `Option Nat` with the configured default supplied at the call
site.  `pdf_research_result` / `arxiv_research_result` are read as
`state.get(...) or []`, so a plain list (with `[]` for `None`) is
faithful. -/
structure OverallState where
  messages : List String
  search_query : List String
  web_research_result : List String
  sources_gathered : List Source
  initial_search_query_count : Nat
  max_research_loops : Option Nat
  research_loop_count : Nat
  reasoning_model : Option String
  uploaded_pdf_info : Option (List PdfInfo)
  pdf_research_result : List String
  codebase_context : Option String
  task_type : Option String
  target_url : Option String
  arxiv_research_result : List String
  query_list : List String
  follow_up_queries : List FollowUpQuery
  is_sufficient : Bool
  number_of_ran_queries : Nat
  knowledge_gap : String
deriving DecidableEq

/-- Python truthiness of an optional string (`None` and `""` are falsy). -/
def optTruthy : Option String → Bool
  | none => false
  | some s => s != ""

/-- Does `pat` occur as a prefix of `s`? (char-list level). -/
def startsWithL : List Char → List Char → Bool
  | [], _ => true
  | _ :: _, [] => false
  | p :: ps, c :: cs => p = c && startsWithL ps cs

/-- Python `pat in s` substring containment (char-list level). -/
def occursInL (pat : List Char) : List Char → Bool
  | [] => startsWithL pat []
  | c :: cs => startsWithL pat (c :: cs) || occursInL pat cs

/-- Python `s.replace(pat, rep)` for a non-empty pattern `p :: ps`: replace
every occurrence, scanning left to right, non-overlapping.  The recursion is
run on a fuel bounded below by `s.length`; every step consumes at least one
character of `s`, so with fuel `s.length` the zero-fuel fallback only ever
sees `s = []` and the function computes exactly Python's `str.replace`. -/
def replaceGo (p : Char) (ps rep : List Char) : Nat → List Char → List Char
  | 0, s => s
  | _ + 1, [] => []
  | n + 1, c :: cs =>
    if startsWithL (p :: ps) (c :: cs) then
      rep ++ replaceGo p ps rep n (cs.drop ps.length)
    else
      c :: replaceGo p ps rep n cs

/-- Python `s.replace(pat, rep)`; the empty-pattern case (never used by the
code: short codes are non-empty) is taken as the identity. -/
def replaceAllL (pat rep s : List Char) : List Char :=
  match pat with
  | [] => s
  | p :: ps => replaceGo p ps rep s.length s

/-- `String` wrapper for `replaceAllL`. -/
def replaceStr (s pat rep : String) : String :=
  ⟨replaceAllL pat.data rep.data s.data⟩

/-- `String` wrapper for Python `needle in hay`. -/
def containsStr (hay needle : String) : Bool :=
  occursInL needle.data hay.data

/-- `task_router_node` (graph.py): total routing into the three
destinations, with fallback to `"generate_query"` when a companion field is
missing or empty, and for unknown/absent `task_type`. -/
def task_router_node (s : OverallState) : String :=
  if s.task_type = some "codebase_qa" then
    if optTruthy s.codebase_context then "codebase_qa_answer" else "generate_query"
  else if s.task_type = some "url_summary" then
    if optTruthy s.target_url then "url_summary" else "generate_query"
  else
    "generate_query"

/-- The update returned by `url_summary_node`.  The missing-URL early return
carries no `sources_gathered` key; under the `operator.add` merge an absent
key and an empty list contribute identically, so both are embedded as
`[]`. -/
structure UrlSummaryUpdate where
  messages : List String
  sources_gathered : List Source
deriving DecidableEq

/-- `url_summary_node` (graph.py).  `response` is the outcome of the
`genai_client.models.generate_content` call (`.ok text` for a normal return
— `.ok ""` when `response.text` is falsy — and `.error e` when the call
raises; the node catches the exception inline). -/
def url_summary_node (s : OverallState) (response : Except String String) :
    UrlSummaryUpdate :=
  match s.target_url with
  | none =>
    { messages := ["Error: Target URL is missing for summarization task."]
      sources_gathered := [] }
  | some url =>
    if url = "" then
      { messages := ["Error: Target URL is missing for summarization task."]
        sources_gathered := [] }
    else
      match response with
      | .error e =>
        { messages := ["An error occurred while trying to summarize the URL "
            ++ url ++ ": " ++ e]
          sources_gathered := [] }
      | .ok t =>
        if t = "" then
          { messages := ["Could not retrieve or summarize content from " ++ url
              ++ ". The content might be inaccessible or the model could not perform the summarization."]
            sources_gathered := [] }
        else
          { messages := [t], sources_gathered := [] }

/-- The input state of a Send-dispatched `web_research` task
(`WebSearchState` of state.py): the Send payload
`{"search_query": ..., "id": ...}`. -/
structure WebSearchState where
  search_query : String
  id : Nat
deriving DecidableEq

/-- The update returned by a successful `web_research` run. -/
structure WebUpdate where
  sources_gathered : List Source
  search_query : List String
  web_research_result : List String
deriving DecidableEq

/-- `web_research` (graph.py).  The `generate_content` call together with
the citation pipeline applied to its response (`resolve_urls`,
`get_citations`, `insert_citation_markers`, whose source file utils.py is
not part of the sources under verification) is passed in as one `outcome`:
`.ok (modified_text, sources)` on success, `.error e` when the external call
raises.  graph.py wraps none of this in `try`/`except`, so an error
propagates out of the node instead of being converted into an inline
block. -/
def web_research (st : WebSearchState) (outcome : Except String (String × List Source)) :
    Except String WebUpdate :=
  match outcome with
  | .error e => .error e
  | .ok (txt, srcs) =>
    .ok { sources_gathered := srcs
          search_query := [st.search_query]
          web_research_result := [txt] }

/-- Merge of a `web_research` update into the session state: all three keys
are `operator.add` channels. -/
def applyWebUpdate (s : OverallState) (u : WebUpdate) : OverallState :=
  { s with
    sources_gathered := s.sources_gathered ++ u.sources_gathered
    search_query := s.search_query ++ u.search_query
    web_research_result := s.web_research_result ++ u.web_research_result }

/-- One text block of `pdf_research_node`'s loop body: extraction outcome or
inline error block for the entry (graph.py lines 271-282).  `extract` is the
`PDFTextExtractionTool.invoke` call for a given path (`.error e` when it
raises; the node catches it inline). -/
def pdf_entry_block (extract : String → Except String String) (info : PdfInfo) : String :=
  let nm := info.name.getD "Unknown PDF"
  match info.path with
  | none => "Error: No path provided for PDF \x27" ++ nm ++ "\x27."
  | some p =>
    if p = "" then "Error: No path provided for PDF \x27" ++ nm ++ "\x27."
    else
      match extract p with
      | .ok t => "Content from PDF \x27" ++ nm ++ "\x27:\n" ++ t
      | .error e => "Error processing PDF \x27" ++ nm ++ "\x27: " ++ e

/-- The update returned by `pdf_research_node`.  The empty-queue early
return carries no `uploaded_pdf_info` key (embedded as the outer `none`,
leaving the channel unchanged); the processing branch overwrites it with
Python `None` (embedded as `some none`). -/
structure PdfUpdate where
  pdf_research_result : List String
  uploaded_pdf_info : Option (Option (List PdfInfo))
deriving DecidableEq

/-- `pdf_research_node` (graph.py).  `if not pdf_info_list` treats both
`None` and `[]` as empty; otherwise the node starts from the existing
`pdf_research_result` list, appends one block per entry, and overwrites
`uploaded_pdf_info` with `None`. -/
def pdf_research_node (s : OverallState) (extract : String → Except String String) :
    PdfUpdate :=
  match s.uploaded_pdf_info with
  | none => { pdf_research_result := s.pdf_research_result, uploaded_pdf_info := none }
  | some [] => { pdf_research_result := s.pdf_research_result, uploaded_pdf_info := none }
  | some infos =>
    { pdf_research_result := s.pdf_research_result ++ infos.map (pdf_entry_block extract)
      uploaded_pdf_info := some none }

/-- Merge of a `pdf_research_node` update into the session state:
`pdf_research_result` is an `operator.add` channel, `uploaded_pdf_info` is
unannotated (overwrite when the key is present). -/
def applyPdfUpdate (s : OverallState) (u : PdfUpdate) : OverallState :=
  { s with
    pdf_research_result := s.pdf_research_result ++ u.pdf_research_result
    uploaded_pdf_info := match u.uploaded_pdf_info with
      | none => s.uploaded_pdf_info
      | some v => v }

/-- The input state of a Send-dispatched `arxiv_research` task: the Send
payload is `{"search_query": q}`, so every other key — in particular
`arxiv_research_result` — is absent (`state.get(...) or []` yields `[]`). -/
structure ArxivInputState where
  search_query : Option String
  arxiv_research_result : List String
deriving DecidableEq

/-- The update returned by `arxiv_research_node`. -/
structure ArxivUpdate where
  arxiv_research_result : List String
deriving DecidableEq

/-- The inline diagnostic block `arxiv_research_node` builds when the
`ArxivSearchTool` call raises. -/
def arxiv_error_msg (q e : String) : String :=
  "Error during ArXiv search for query \x27" ++ q ++ "\x27: " ++ e

/-- `arxiv_research_node` (graph.py).  `tool` is the outcome of
`ArxivSearchTool().invoke({"query": q})` (`.error e` when it raises; the
node catches it inline and substitutes the diagnostic block). -/
def arxiv_research_node (st : ArxivInputState) (tool : Except String String) :
    ArxivUpdate :=
  match st.search_query with
  | none => { arxiv_research_result := st.arxiv_research_result }
  | some q =>
    if q = "" then { arxiv_research_result := st.arxiv_research_result }
    else
      { arxiv_research_result := st.arxiv_research_result ++
          [match tool with
            | .ok r => r
            | .error e => arxiv_error_msg q e] }

/-- Merge of an `arxiv_research_node` update into the session state:
`arxiv_research_result` is an `operator.add` channel. -/
def applyArxivUpdate (s : OverallState) (u : ArxivUpdate) : OverallState :=
  { s with arxiv_research_result := s.arxiv_research_result ++ u.arxiv_research_result }

/-- A `Send` emitted by a dispatcher: `Send("web_research", {"search_query":
q, "id": i})` or `Send("arxiv_research", {"search_query": q})`. -/
inductive SendTask where
  | web (search_query : String) (id : Nat)
  | arxiv (search_query : String)
deriving DecidableEq

/-- `initial_web_research_dispatcher_node` (graph.py): one web task per
entry of `query_list` — empty strings included — with ids `0, 1, ...` in
list order. -/
def initial_web_research_dispatcher_node (s : OverallState) : List SendTask :=
  s.query_list.enum.map fun p => SendTask.web p.2 p.1

/-- `followup_research_dispatcher_node` (graph.py): iterates
`follow_up_queries` with `enumerate`, skips falsy queries, routes
`type == "arxiv"` items to the academic worker without an id, and sends
everything else to the web worker with id `number_of_ran_queries + idx`
where `idx` is the item's position in the original list. -/
def followup_research_dispatcher_node (s : OverallState) : List SendTask :=
  s.follow_up_queries.enum.filterMap fun p =>
    if p.2.query = "" then none
    else if p.2.type = some "arxiv" then some (SendTask.arxiv p.2.query)
    else some (SendTask.web p.2.query (s.number_of_ran_queries + p.1))

/-- The update returned by `reflection_node` (`ReflectionState` of
state.py). -/
structure ReflectionUpdate where
  is_sufficient : Bool
  knowledge_gap : String
  follow_up_queries : List FollowUpQuery
  research_loop_count : Nat
  number_of_ran_queries : Nat
deriving DecidableEq

/-- `reflection_node` (graph.py).  `result` is the structured verdict of the
gap-analysis model call; the node increments `research_loop_count` by
exactly one and snapshots `len(state["search_query"])` as
`number_of_ran_queries`. -/
def reflection_node (s : OverallState) (result : ReflectionResult) : ReflectionUpdate :=
  { is_sufficient := result.is_sufficient
    knowledge_gap := result.knowledge_gap
    follow_up_queries := result.follow_up_queries
    research_loop_count := s.research_loop_count + 1
    number_of_ran_queries := s.search_query.length }

/-- Merge of a `reflection_node` update into the session state:
`follow_up_queries` is an `operator.add` channel (state.py line 38), the
other four keys overwrite. -/
def applyReflectionUpdate (s : OverallState) (u : ReflectionUpdate) : OverallState :=
  { s with
    is_sufficient := u.is_sufficient
    knowledge_gap := u.knowledge_gap
    follow_up_queries := s.follow_up_queries ++ u.follow_up_queries
    research_loop_count := u.research_loop_count
    number_of_ran_queries := u.number_of_ran_queries }

/-- `evaluate_research_conditional_router` (graph.py).  `cfg_max` is
`configurable.max_research_loops` (agent/configuration.py is outside the
sources under verification; the router only reads it as the
`state.get("max_research_loops", ...)` default). -/
def evaluate_research_conditional_router (s : OverallState) (cfg_max : Nat) : String :=
  let max_loops := s.max_research_loops.getD cfg_max
  if s.is_sufficient ∨ max_loops ≤ s.research_loop_count then
    "finalize_answer"
  else if s.follow_up_queries ≠ [] ∧ s.follow_up_queries.any (fun q => q.query != "") then
    "dispatch_followup_research"
  else
    "finalize_answer"

/-- The substitution/filter pass of `finalize_answer_node` (graph.py lines
472-476): for each gathered source in order, if its `short_url` occurs in
the current text, replace every occurrence with `value` and keep the record;
otherwise drop it and leave the text unchanged.  Returns the final text and
the kept records. -/
def substPass (txt : String) : List Source → String × List Source
  | [] => (txt, [])
  | src :: rest =>
    if containsStr txt src.short_url then
      let out := substPass (replaceStr txt src.short_url src.value) rest
      (out.1, src :: out.2)
    else
      substPass txt rest

/-- The update returned by `finalize_answer_node`. -/
structure FinalizeUpdate where
  messages : List String
  sources_gathered : List Source
  web_research_result : List String
  pdf_research_result : List String
  arxiv_research_result : List String
  query_list : List String
  follow_up_queries : List FollowUpQuery
deriving DecidableEq

/-- `finalize_answer_node` (graph.py).  `answer` is the content of the
final-synthesis model call's message.  The node runs the substitution/filter
pass over `sources_gathered`, appends the processed answer, returns the kept
records as `sources_gathered`, and returns `[]` for the per-round keys. -/
def finalize_answer_node (s : OverallState) (answer : String) : FinalizeUpdate :=
  let out := substPass answer s.sources_gathered
  { messages := [out.1]
    sources_gathered := out.2
    web_research_result := []
    pdf_research_result := []
    arxiv_research_result := []
    query_list := []
    follow_up_queries := [] }

/-- Merge of a `finalize_answer_node` update into the session state:
`messages` (`add_messages`, fresh messages append), `sources_gathered`,
`web_research_result`, `pdf_research_result`, `arxiv_research_result` and
`follow_up_queries` (`operator.add`) merge by concatenation; `query_list`
is unannotated and overwrites. -/
def applyFinalizeUpdate (s : OverallState) (u : FinalizeUpdate) : OverallState :=
  { s with
    messages := s.messages ++ u.messages
    sources_gathered := s.sources_gathered ++ u.sources_gathered
    web_research_result := s.web_research_result ++ u.web_research_result
    pdf_research_result := s.pdf_research_result ++ u.pdf_research_result
    arxiv_research_result := s.arxiv_research_result ++ u.arxiv_research_result
    query_list := u.query_list
    follow_up_queries := s.follow_up_queries ++ u.follow_up_queries }

/-- The node names registered on the graph by the `builder.add_node` calls
(graph.py lines 496-513). -/
def graph_nodes : List String :=
  ["task_router", "generate_query", "pdf_research",
   "initial_web_research_dispatcher", "web_research", "arxiv_research",
   "reflection", "followup_research_dispatcher", "finalize_answer",
   "codebase_qa_answer", "url_summary"]

/-- The label-to-node mapping of the conditional edges attached to
`reflection` (graph.py lines 534-541). -/
def reflection_edge_map : List (String × String) :=
  [("finalize_answer", "finalize_answer"),
   ("dispatch_followup_web_research", "followup_web_research_dispatcher")]

/-- The static edges added by `builder.add_edge` (graph.py lines 530-549),
with `"END"` for the terminal vertex. -/
def static_edges : List (String × String) :=
  [("generate_query", "pdf_research"),
   ("pdf_research", "initial_web_research_dispatcher"),
   ("initial_web_research_dispatcher", "reflection"),
   ("followup_web_research_dispatcher", "reflection"),
   ("finalize_answer", "END"),
   ("codebase_qa_answer", "END"),
   ("url_summary", "END")]

/-- A convenient empty session state for building concrete inputs. -/
def s0 : OverallState :=
  { messages := []
    search_query := []
    web_research_result := []
    sources_gathered := []
    initial_search_query_count := 3
    max_research_loops := none
    research_loop_count := 0
    reasoning_model := none
    uploaded_pdf_info := none
    pdf_research_result := []
    codebase_context := none
    task_type := none
    target_url := none
    arxiv_research_result := []
    query_list := []
    follow_up_queries := []
    is_sufficient := false
    number_of_ran_queries := 0
    knowledge_gap := "" }

/-- If the router chooses the follow-up label, the first guard of
`evaluate_research_conditional_router` was false, so the loop count is still
below the round bound. -/
theorem router_dispatch_lt (s : OverallState) (cfg : Nat)
    (h : evaluate_research_conditional_router s cfg = "dispatch_followup_research") :
    s.research_loop_count < s.max_research_loops.getD cfg := by
  unfold evaluate_research_conditional_router at h
  by_cases hc : (s.is_sufficient = true
      ∨ s.max_research_loops.getD cfg ≤ s.research_loop_count)
  · rw [if_pos hc] at h
    exact absurd h (by decide)
  · push_neg at hc
    omega

/-- The reflect-then-route loop of the research path, counting reflection
invocations: each turn performs one reflection (`reflection_node` with the
round's verdict `oracle s.research_loop_count`, merged via
`applyReflectionUpdate`) and then consults
`evaluate_research_conditional_router`; the loop re-enters exactly when the
router returns the follow-up label, and otherwise finalizes.  Termination is
by the round bound: each reflection raises `research_loop_count` by one and
the router re-enters only while it is below `max_research_loops`. -/
def loopIters (cfg : Nat) (oracle : Nat → ReflectionResult) (s : OverallState) : Nat :=
  if h : evaluate_research_conditional_router
      (applyReflectionUpdate s (reflection_node s (oracle s.research_loop_count))) cfg
      = "dispatch_followup_research" then
    1 + loopIters cfg oracle
      (applyReflectionUpdate s (reflection_node s (oracle s.research_loop_count)))
  else
    1
termination_by s.max_research_loops.getD cfg - s.research_loop_count
decreasing_by
  have hlt := router_dispatch_lt _ cfg h
  simp only [applyReflectionUpdate, reflection_node] at hlt ⊢
  omega

/-- Bound for `loopIters` by the remaining round budget (auxiliary strong
induction on an upper bound of the budget). -/
theorem loopIters_le_aux (cfg : Nat) (oracle : Nat → ReflectionResult) :
    ∀ (n : Nat) (s : OverallState),
      s.max_research_loops.getD cfg - s.research_loop_count ≤ n →
      loopIters cfg oracle s ≤ max (s.max_research_loops.getD cfg - s.research_loop_count) 1 := by
  intro n
  induction n with
  | zero =>
    intro s hn
    rw [loopIters]
    split
    · next h =>
      exfalso
      have hlt := router_dispatch_lt _ cfg h
      simp only [applyReflectionUpdate, reflection_node] at hlt
      omega
    · exact Nat.le_max_right _ 1
  | succ n ih =>
    intro s hn
    rw [loopIters]
    split
    · next h =>
      have hlt := router_dispatch_lt _ cfg h
      set s2 := applyReflectionUpdate s (reflection_node s (oracle s.research_loop_count)) with hs2
      have e1 : s2.research_loop_count = s.research_loop_count + 1 := by
        rw [hs2]; rfl
      have e2 : s2.max_research_loops = s.max_research_loops := by
        rw [hs2]; rfl
      rw [e1, e2] at hlt
      have h2 := ih s2 (by rw [e1, e2]; omega)
      rw [e1, e2] at h2
      rw [Nat.max_eq_left (by omega : 1 ≤ s.max_research_loops.getD cfg - (s.research_loop_count + 1))] at h2
      rw [Nat.max_eq_left (by omega : 1 ≤ s.max_research_loops.getD cfg - s.research_loop_count)]
      omega
    · exact Nat.le_max_right _ 1

/-- The kept records of the substitution/filter pass form a sublist of the
gathered records. -/
theorem substPass_sublist (txt : String) (l : List Source) :
    (substPass txt l).2.Sublist l := by
  induction l generalizing txt with
  | nil => simp [substPass]
  | cons src rest ih =>
    unfold substPass
    by_cases h : containsStr txt src.short_url
    · simp only [h, if_true]
      exact List.Sublist.cons₂ src (ih _)
    · simp only [h, Bool.false_eq_true, if_false]
      exact List.Sublist.cons src (ih txt)

/-- Every record kept by the substitution/filter pass had its short code
contained in the text as it stood at that record's check. -/
theorem substPass_kept_contains (txt : String) (l : List Source) :
    ∀ r ∈ (substPass txt l).2, ∃ t : String, containsStr t r.short_url = true := by
  induction l generalizing txt with
  | nil => simp [substPass]
  | cons src rest ih =>
    unfold substPass
    by_cases h : containsStr txt src.short_url
    · simp only [h, if_true]
      intro r hr
      rcases List.mem_cons.mp hr with rfl | hr
      · exact ⟨txt, h⟩
      · exact ih _ r hr
    · simp only [h, Bool.false_eq_true, if_false]
      exact ih txt

/-- A string with a non-empty left part stays non-empty after appending. -/
theorem append_ne_empty_left (a b : String) (h : a ≠ "") : a ++ b ≠ "" := by
  intro hc
  apply h
  apply String.ext
  have hd := congrArg String.data hc
  rw [String.data_append] at hd
  have := List.append_eq_nil.mp hd
  simpa using this.1


/-- C1: after a reflection in the insufficient-with-usable-follow-ups case,
`evaluate_research_conditional_router` returns
`"dispatch_followup_research"`, but that label is not a key of the
conditional-edge mapping attached to `reflection` (its follow-up key is
still the pre-rename `"dispatch_followup_web_research"`), and the node that
mapping targets, `"followup_web_research_dispatcher"`, was never registered
(the dispatcher was added under the name `"followup_research_dispatcher"`).
So in that case control cannot reach the follow-up dispatcher: the claimed
transition does not exist in the graph. -/
theorem c1_followup_edge_missing :
    evaluate_research_conditional_router
      { s0 with research_loop_count := 1, max_research_loops := some 2,
                follow_up_queries := [⟨some "web", "C"⟩] } 2
      = "dispatch_followup_research"
    ∧ "dispatch_followup_research" ∉ reflection_edge_map.map Prod.fst
    ∧ "followup_web_research_dispatcher" ∉ graph_nodes
    ∧ ("dispatch_followup_web_research", "followup_web_research_dispatcher") ∈ reflection_edge_map
    ∧ ("followup_web_research_dispatcher", "reflection") ∈ static_edges
    ∧ "followup_research_dispatcher" ∈ graph_nodes := by
  decide

/-- C2: every reflection invocation raises `research_loop_count` by exactly
one (hence the count is monotone), the router finalizes as soon as the count
has reached the round bound, and the reflect/route loop performs at most
`max (bound - count) 1` reflections — in particular at most `maxRounds`
reflections from a fresh state when `maxRounds ≥ 1` — for every sequence of
sufficiency verdicts. -/
theorem c2_round_count_termination :
    (∀ (s : OverallState) (r : ReflectionResult),
        (reflection_node s r).research_loop_count = s.research_loop_count + 1)
    ∧ (∀ (s : OverallState) (r : ReflectionResult),
        s.research_loop_count
          ≤ (applyReflectionUpdate s (reflection_node s r)).research_loop_count)
    ∧ (∀ (s : OverallState) (cfg : Nat),
        s.max_research_loops.getD cfg ≤ s.research_loop_count →
        evaluate_research_conditional_router s cfg = "finalize_answer")
    ∧ (∀ (cfg : Nat) (oracle : Nat → ReflectionResult) (s : OverallState),
        loopIters cfg oracle s
          ≤ max (s.max_research_loops.getD cfg - s.research_loop_count) 1)
    ∧ (∀ (cfg : Nat) (oracle : Nat → ReflectionResult) (s : OverallState),
        s.research_loop_count = 0 → 1 ≤ s.max_research_loops.getD cfg →
        loopIters cfg oracle s ≤ s.max_research_loops.getD cfg) := by
  refine ⟨fun s r => rfl, ?_, ?_, ?_, ?_⟩
  · intro s r
    simp only [applyReflectionUpdate, reflection_node]
    omega
  · intro s cfg h
    unfold evaluate_research_conditional_router
    rw [if_pos (Or.inr h)]
  · intro cfg oracle s
    exact loopIters_le_aux cfg oracle _ s le_rfl
  · intro cfg oracle s h0 h1
    have hb := loopIters_le_aux cfg oracle _ s le_rfl
    rw [h0, Nat.sub_zero, Nat.max_eq_left h1] at hb
    exact hb

/-- Witness for C2: a concrete state at the round bound routes to the
finalizer. -/
theorem c2_witness :
    evaluate_research_conditional_router
      { s0 with research_loop_count := 2, max_research_loops := some 2 } 2
      = "finalize_answer" :=
  c2_round_count_termination.2.2.1 _ 2 (by decide)

/-- C9: the task router is a total function into the three destinations:
it returns the document-QA destination iff `task_type` is `"codebase_qa"`
and `codebase_context` is truthy, the url-summary destination iff
`task_type` is `"url_summary"` and `target_url` is truthy, and the research
destination in every other case. -/
theorem c9_task_router_total :
    ∀ (s : OverallState),
      (task_router_node s = "codebase_qa_answer" ↔
        s.task_type = some "codebase_qa" ∧ optTruthy s.codebase_context = true)
      ∧ (task_router_node s = "url_summary" ↔
        s.task_type = some "url_summary" ∧ optTruthy s.target_url = true)
      ∧ (task_router_node s = "codebase_qa_answer" ∨ task_router_node s = "url_summary"
          ∨ task_router_node s = "generate_query") := by
  intro s
  unfold task_router_node
  by_cases h1 : s.task_type = some "codebase_qa"
  · rw [if_pos h1]
    by_cases h2 : optTruthy s.codebase_context = true
    · rw [if_pos h2]
      refine ⟨iff_of_true rfl ⟨h1, h2⟩, iff_of_false (by decide) ?_, Or.inl rfl⟩
      rintro ⟨hh, -⟩
      rw [h1] at hh
      exact absurd hh (by decide)
    · rw [if_neg h2]
      refine ⟨iff_of_false (by decide) ?_, iff_of_false (by decide) ?_,
        Or.inr (Or.inr rfl)⟩
      · rintro ⟨-, hh⟩
        exact h2 hh
      · rintro ⟨hh, -⟩
        rw [h1] at hh
        exact absurd hh (by decide)
  · rw [if_neg h1]
    by_cases h3 : s.task_type = some "url_summary"
    · rw [if_pos h3]
      by_cases h4 : optTruthy s.target_url = true
      · rw [if_pos h4]
        refine ⟨iff_of_false (by decide) ?_, iff_of_true rfl ⟨h3, h4⟩,
          Or.inr (Or.inl rfl)⟩
        rintro ⟨hh, -⟩
        rw [h3] at hh
        exact absurd hh (by decide)
      · rw [if_neg h4]
        refine ⟨iff_of_false (by decide) ?_, iff_of_false (by decide) ?_,
          Or.inr (Or.inr rfl)⟩
        · rintro ⟨hh, -⟩
          exact h1 hh
        · rintro ⟨-, hh⟩
          exact h4 hh
    · rw [if_neg h3]
      refine ⟨iff_of_false (by decide) ?_, iff_of_false (by decide) ?_,
        Or.inr (Or.inr rfl)⟩
      · rintro ⟨hh, -⟩
        exact h1 hh
      · rintro ⟨hh, -⟩
        exact h3 hh

/-- Witness for C9: a url-summary request with a non-empty URL routes to the
url-summary node. -/
theorem c9_witness :
    task_router_node
      { s0 with task_type := some "url_summary", target_url := some "http://x" }
      = "url_summary" :=
  (c9_task_router_total _).2.1.mpr ⟨rfl, by decide⟩


/-- C10: every invocation of the url-summary worker returns exactly one
answer message with non-empty text and an empty `sources_gathered`
contribution; the missing-URL, raised-call, empty-text and normal branches
each produce exactly the message the code builds. -/
theorem c10_url_summary_total :
    ∀ (s : OverallState) (response : Except String String),
      (url_summary_node s response).messages.length = 1
      ∧ (url_summary_node s response).sources_gathered = []
      ∧ (∀ m ∈ (url_summary_node s response).messages, m ≠ "")
      ∧ (optTruthy s.target_url = false →
          (url_summary_node s response).messages
            = ["Error: Target URL is missing for summarization task."])
      ∧ (∀ url e, s.target_url = some url → url ≠ "" → response = .error e →
          (url_summary_node s response).messages
            = ["An error occurred while trying to summarize the URL "
                ++ url ++ ": " ++ e])
      ∧ (∀ url, s.target_url = some url → url ≠ "" → response = .ok "" →
          (url_summary_node s response).messages
            = ["Could not retrieve or summarize content from " ++ url
                ++ ". The content might be inaccessible or the model could not perform the summarization."])
      ∧ (∀ url t, s.target_url = some url → url ≠ "" → response = .ok t → t ≠ "" →
          (url_summary_node s response).messages = [t]) := by
  intro s response
  rcases hu : s.target_url with _ | url
  · refine ⟨by simp [url_summary_node, hu], by simp [url_summary_node, hu], ?_,
      fun _ => by simp [url_summary_node, hu], ?_, ?_, ?_⟩
    · intro m hm
      simp [url_summary_node, hu] at hm
      subst hm
      decide
    · intro url e h
      exact absurd h (by simp)
    · intro url h
      exact absurd h (by simp)
    · intro url t h
      exact absurd h (by simp)
  · by_cases hue : url = ""
    · subst hue
      refine ⟨by simp [url_summary_node, hu], by simp [url_summary_node, hu], ?_,
        fun _ => by simp [url_summary_node, hu], ?_, ?_, ?_⟩
      · intro m hm
        simp [url_summary_node, hu] at hm
        subst hm
        decide
      · intro url' e' h hne
        rw [Option.some.injEq] at h
        exact absurd h.symm hne
      · intro url' h hne
        rw [Option.some.injEq] at h
        exact absurd h.symm hne
      · intro url' t' h hne
        rw [Option.some.injEq] at h
        exact absurd h.symm hne
    · rcases response with e | t
      · refine ⟨by simp [url_summary_node, hu, hue], by simp [url_summary_node, hu, hue],
          ?_, ?_, ?_, ?_, ?_⟩
        · intro m hm
          simp [url_summary_node, hu, hue] at hm
          subst hm
          exact append_ne_empty_left _ _
            (append_ne_empty_left _ _ (append_ne_empty_left _ _ (by decide)))
        · intro hf
          simp [optTruthy, hue] at hf
        · intro url' e' h hne hresp
          rw [Option.some.injEq] at h
          rw [Except.error.injEq] at hresp
          subst h
          subst hresp
          simp [url_summary_node, hu, hue]
        · intro url' h hne hresp
          exact absurd hresp (by simp)
        · intro url' t' h hne hresp
          exact absurd hresp (by simp)
      · by_cases hte : t = ""
        · subst hte
          refine ⟨by simp [url_summary_node, hu, hue], by simp [url_summary_node, hu, hue],
            ?_, ?_, ?_, ?_, ?_⟩
          · intro m hm
            simp [url_summary_node, hu, hue] at hm
            subst hm
            exact append_ne_empty_left _ _ (append_ne_empty_left _ _ (by decide))
          · intro hf
            simp [optTruthy, hue] at hf
          · intro url' e' h hne hresp
            exact absurd hresp (by simp)
          · intro url' h hne hresp
            rw [Option.some.injEq] at h
            subst h
            simp [url_summary_node, hu, hue]
          · intro url' t' h hne hresp ht'
            rw [Except.ok.injEq] at hresp
            exact absurd hresp.symm ht'
        · refine ⟨by simp [url_summary_node, hu, hue, hte],
            by simp [url_summary_node, hu, hue, hte], ?_, ?_, ?_, ?_, ?_⟩
          · intro m hm
            simp [url_summary_node, hu, hue, hte] at hm
            subst hm
            exact hte
          · intro hf
            simp [optTruthy, hue] at hf
          · intro url' e' h hne hresp
            exact absurd hresp (by simp)
          · intro url' h hne hresp
            rw [Except.ok.injEq] at hresp
            exact absurd hresp hte
          · intro url' t' h hne hresp ht'
            rw [Option.some.injEq] at h
            subst h
            rw [Except.ok.injEq] at hresp
            subst hresp
            simp [url_summary_node, hu, hue, hte]

/-- Witness for C10: a raised call on a concrete URL yields the inline error
message mentioning the URL. -/
theorem c10_witness :
    (url_summary_node { s0 with target_url := some "http://a" }
        (.error "boom")).messages
      = ["An error occurred while trying to summarize the URL "
          ++ "http://a" ++ ": " ++ "boom"] :=
  (c10_url_summary_total { s0 with target_url := some "http://a" }
    (.error "boom")).2.2.2.2.1 "http://a" "boom" rfl (by decide) rfl

/-- A concrete pre-finalize state with one source that the answer cites and
one that it does not. -/
def c3state : OverallState :=
  { s0 with sources_gathered := [⟨"s1", "http://one"⟩, ⟨"s9", "http://nine"⟩] }

/-- C3 counterexample: after finalize on the answer `"see s1 ok"`, the
record with short code `"s9"` — absent from the finalized text — still
survives in the post-finalize session state, because the `operator.add`
merge appends the node's filtered list to the prior records instead of
replacing them. -/
theorem c3_counterexample :
    (applyFinalizeUpdate c3state (finalize_answer_node c3state "see s1 ok")).messages
      = ["see http://one ok"]
    ∧ (⟨"s9", "http://nine"⟩ : Source)
        ∈ (applyFinalizeUpdate c3state
            (finalize_answer_node c3state "see s1 ok")).sources_gathered
    ∧ containsStr "see http://one ok" "s9" = false := by
  decide

/-- C3 as amended: the finalize node's returned `sources_gathered` is the
sublist of the gathered records kept by the substitution pass — each kept
record's short code occurred in the text as it stood at that record's check
— and the post-merge session state's `sources_gathered` equals the prior
records concatenated with this filtered contribution (so prior records,
including ones with absent short codes, survive). -/
theorem c3_finalize_filter :
    ∀ (s : OverallState) (answer : String),
      (applyFinalizeUpdate s (finalize_answer_node s answer)).sources_gathered
        = s.sources_gathered ++ (substPass answer s.sources_gathered).2
      ∧ (applyFinalizeUpdate s (finalize_answer_node s answer)).messages
        = s.messages ++ [(substPass answer s.sources_gathered).1]
      ∧ (substPass answer s.sources_gathered).2.Sublist s.sources_gathered
      ∧ ∀ r ∈ (substPass answer s.sources_gathered).2,
          ∃ t : String, containsStr t r.short_url = true := by
  intro s answer
  exact ⟨rfl, rfl, substPass_sublist _ _, substPass_kept_contains _ _⟩

/-- Witness for C3: the kept record of the concrete run had its short code
contained in the text at its check. -/
theorem c3_witness :
    ∃ t : String, containsStr t (Source.mk "s1" "http://one").short_url = true :=
  (c3_finalize_filter c3state "see s1 ok").2.2.2 ⟨"s1", "http://one"⟩ (by decide)

/-- C4 counterexample: the per-round accumulator `web_research_result` is
not empty after finalize — the node returns `[]` but the `operator.add`
merge appends it, leaving the prior contents in place. -/
theorem c4_counterexample :
    (applyFinalizeUpdate { s0 with web_research_result := ["w"] }
        (finalize_answer_node { s0 with web_research_result := ["w"] }
          "done")).web_research_result
      ≠ [] := by
  decide

/-- C4 as amended: after the finalize update is merged, the concatenation-
merged accumulators (`web_research_result`, `pdf_research_result`,
`arxiv_research_result`, `follow_up_queries`) retain their prior contents
unchanged; the overwrite-merged `query_list` becomes empty; the filtered
sources contribution is appended to `sources_gathered`; the final answer is
appended to the transcript; and every other field is unchanged. -/
theorem c4_finalize_frame :
    ∀ (s : OverallState) (answer : String),
      (applyFinalizeUpdate s (finalize_answer_node s answer)).web_research_result
        = s.web_research_result
      ∧ (applyFinalizeUpdate s (finalize_answer_node s answer)).pdf_research_result
        = s.pdf_research_result
      ∧ (applyFinalizeUpdate s (finalize_answer_node s answer)).arxiv_research_result
        = s.arxiv_research_result
      ∧ (applyFinalizeUpdate s (finalize_answer_node s answer)).follow_up_queries
        = s.follow_up_queries
      ∧ (applyFinalizeUpdate s (finalize_answer_node s answer)).query_list = []
      ∧ (applyFinalizeUpdate s (finalize_answer_node s answer)).messages
        = s.messages ++ [(substPass answer s.sources_gathered).1]
      ∧ (applyFinalizeUpdate s (finalize_answer_node s answer)).sources_gathered
        = s.sources_gathered ++ (substPass answer s.sources_gathered).2
      ∧ (applyFinalizeUpdate s (finalize_answer_node s answer)).search_query
        = s.search_query
      ∧ (applyFinalizeUpdate s (finalize_answer_node s answer)).research_loop_count
        = s.research_loop_count
      ∧ (applyFinalizeUpdate s (finalize_answer_node s answer)).is_sufficient
        = s.is_sufficient
      ∧ (applyFinalizeUpdate s (finalize_answer_node s answer)).max_research_loops
        = s.max_research_loops
      ∧ (applyFinalizeUpdate s (finalize_answer_node s answer)).uploaded_pdf_info
        = s.uploaded_pdf_info
      ∧ (applyFinalizeUpdate s (finalize_answer_node s answer)).task_type = s.task_type
      ∧ (applyFinalizeUpdate s (finalize_answer_node s answer)).target_url = s.target_url
      ∧ (applyFinalizeUpdate s (finalize_answer_node s answer)).codebase_context
        = s.codebase_context
      ∧ (applyFinalizeUpdate s (finalize_answer_node s answer)).number_of_ran_queries
        = s.number_of_ran_queries
      ∧ (applyFinalizeUpdate s (finalize_answer_node s answer)).knowledge_gap
        = s.knowledge_gap
      ∧ (applyFinalizeUpdate s (finalize_answer_node s answer)).initial_search_query_count
        = s.initial_search_query_count
      ∧ (applyFinalizeUpdate s (finalize_answer_node s answer)).reasoning_model
        = s.reasoning_model := by
  intro s answer
  simp [applyFinalizeUpdate, finalize_answer_node]

/-- C5 counterexample: when the web worker's external call raises, the
failure propagates out of `web_research` as-is instead of being converted to
an inline diagnostic block in a returned state update. -/
theorem c5_counterexample :
    web_research ⟨"q", 0⟩ (Except.error "boom") = Except.error "boom" := rfl

/-- C5 as amended: the academic and document workers are total and convert
every failure of their external call into an inline diagnostic block in
their result sequence, while the web worker does not wrap its call, so a
failure there propagates as an error. -/
theorem c5_fault_isolation :
    (∀ (st : WebSearchState) (e : String), web_research st (.error e) = .error e)
    ∧ (∀ (st : ArxivInputState) (q e : String), st.search_query = some q → q ≠ "" →
        arxiv_research_node st (.error e)
          = { arxiv_research_result := st.arxiv_research_result ++ [arxiv_error_msg q e] })
    ∧ (∀ (s : OverallState) (extract : String → Except String String),
        (pdf_research_node s extract).pdf_research_result
          = s.pdf_research_result
              ++ (s.uploaded_pdf_info.getD []).map (pdf_entry_block extract))
    ∧ (∀ (nm p e : String) (extract : String → Except String String),
        p ≠ "" → extract p = .error e →
        pdf_entry_block extract ⟨some nm, some p⟩
          = "Error processing PDF \x27" ++ nm ++ "\x27: " ++ e) := by
  refine ⟨fun st e => rfl, ?_, ?_, ?_⟩
  · intro st q e hq hne
    simp [arxiv_research_node, hq, hne]
  · intro s extract
    rcases hs : s.uploaded_pdf_info with _ | l
    · simp [pdf_research_node, hs]
    · rcases l with _ | ⟨i, is⟩
      · simp [pdf_research_node, hs]
      · simp [pdf_research_node, hs]
  · intro nm p e extract hp he
    simp [pdf_entry_block, hp, he]

/-- Witness for C5: a concrete raised academic search is converted into the
inline diagnostic block. -/
theorem c5_witness :
    arxiv_research_node ⟨some "q", []⟩ (.error "x")
      = { arxiv_research_result := [arxiv_error_msg "q" "x"] } :=
  c5_fault_isolation.2.1 ⟨some "q", []⟩ "q" "x" rfl (by decide)

/-- A concrete state with prior document results and an empty uploads
queue. -/
def c6state : OverallState := { s0 with pdf_research_result := ["a"] }

/-- C6 counterexample: invoking the document worker on an empty uploads
queue is not a no-op on the session state — the node returns the existing
results, and the `operator.add` merge appends them to themselves. -/
theorem c6_counterexample :
    (applyPdfUpdate c6state
        (pdf_research_node c6state fun _ => .ok "t")).pdf_research_result
      = ["a", "a"]
    ∧ (["a", "a"] : List String) ≠ ["a"] := by
  decide

/-- C6 as amended: a run with a non-empty uploads queue clears
`uploaded_pdf_info` (both in the returned update and in the merged state),
so the uploads are consumed exactly once; but an invocation with an empty
queue returns the existing `pdf_research_result` as its contribution, and
under the concatenation merge the session state's list becomes the prior
list concatenated with itself, not the unchanged prior list. -/
theorem c6_consume_once :
    (∀ (s : OverallState) (extract : String → Except String String) (l : List PdfInfo),
        s.uploaded_pdf_info = some l → l ≠ [] →
        (pdf_research_node s extract).uploaded_pdf_info = some none
        ∧ (applyPdfUpdate s (pdf_research_node s extract)).uploaded_pdf_info = none)
    ∧ (∀ (s : OverallState) (extract : String → Except String String),
        s.uploaded_pdf_info.getD [] = [] →
        (pdf_research_node s extract).pdf_research_result = s.pdf_research_result
        ∧ (applyPdfUpdate s (pdf_research_node s extract)).pdf_research_result
            = s.pdf_research_result ++ s.pdf_research_result) := by
  constructor
  · intro s extract l hl hne
    rcases l with _ | ⟨i, is⟩
    · exact absurd rfl hne
    · constructor <;> simp [pdf_research_node, applyPdfUpdate, hl]
  · intro s extract hemp
    rcases hs : s.uploaded_pdf_info with _ | l
    · constructor <;> simp [pdf_research_node, applyPdfUpdate, hs]
    · rw [hs] at hemp
      simp only [Option.getD_some] at hemp
      subst hemp
      constructor <;> simp [pdf_research_node, applyPdfUpdate, hs]

/-- Witness for C6: a concrete non-empty uploads queue is cleared by the
run. -/
theorem c6_witness :
    (pdf_research_node { s0 with uploaded_pdf_info := some [⟨some "n", some "p"⟩] }
        (fun _ => .ok "t")).uploaded_pdf_info = some none :=
  (c6_consume_once.1 { s0 with uploaded_pdf_info := some [⟨some "n", some "p"⟩] }
    (fun _ => .ok "t") [⟨some "n", some "p"⟩] rfl (by decide)).1

/-- C7 counterexample: the initial dispatcher emits a task for an
empty-query item (and gives it an id), and the follow-up dispatcher assigns
ids by original list position, so a dropped empty item still consumes an id
— the surviving follow-up gets id `5 + 1 = 6` instead of `5`. -/
theorem c7_counterexample :
    initial_web_research_dispatcher_node { s0 with query_list := [""] }
      = [SendTask.web "" 0]
    ∧ followup_research_dispatcher_node
        { s0 with follow_up_queries := [⟨some "web", ""⟩, ⟨some "web", "B"⟩],
                  number_of_ran_queries := 5 }
      = [SendTask.web "B" 6] := by
  decide

/-- C7 as amended: the initial dispatch emits exactly one web task per
planner item — empty items included — with ids `0..M-1` in list order; the
follow-up dispatch emits exactly one task per non-empty item, routing
`arxiv`-typed items to the academic worker without an id and the rest to
the web worker, but each web task's id is `number_of_ran_queries + i` for
the item's original position `i`, so dropped and academic items still
consume an id. -/
theorem c7_dispatch_ids :
    (∀ (s : OverallState),
        (initial_web_research_dispatcher_node s).length = s.query_list.length
        ∧ ∀ (i : Nat), i < s.query_list.length →
            (initial_web_research_dispatcher_node s)[i]?
              = some (SendTask.web (s.query_list.getD i "") i))
    ∧ (∀ (s : OverallState) (t : SendTask),
        t ∈ followup_research_dispatcher_node s ↔
          ∃ i item, s.follow_up_queries[i]? = some item ∧ item.query ≠ ""
            ∧ ((item.type = some "arxiv" ∧ t = SendTask.arxiv item.query)
               ∨ (item.type ≠ some "arxiv"
                   ∧ t = SendTask.web item.query (s.number_of_ran_queries + i)))) := by
  constructor
  · intro s
    constructor
    · simp [initial_web_research_dispatcher_node]
    · intro i h
      simp [initial_web_research_dispatcher_node, List.getElem?_map, List.getElem?_enum,
        List.getElem?_eq_getElem h, List.getD_eq_getElem _ _ h]
  · intro s t
    unfold followup_research_dispatcher_node
    rw [List.mem_filterMap]
    constructor
    · rintro ⟨⟨i, item⟩, hmem, hf⟩
      have hidx : s.follow_up_queries[i]? = some item :=
        List.mk_mem_enum_iff_getElem?.mp hmem
      by_cases hq : item.query = ""
      · rw [if_pos hq] at hf
        exact absurd hf (by simp)
      · rw [if_neg hq] at hf
        refine ⟨i, item, hidx, hq, ?_⟩
        by_cases ha : item.type = some "arxiv"
        · rw [if_pos ha] at hf
          rw [Option.some.injEq] at hf
          exact Or.inl ⟨ha, hf.symm⟩
        · rw [if_neg ha] at hf
          rw [Option.some.injEq] at hf
          exact Or.inr ⟨ha, hf.symm⟩
    · rintro ⟨i, item, hidx, hq, hcase⟩
      refine ⟨(i, item), List.mk_mem_enum_iff_getElem?.mpr hidx, ?_⟩
      rcases hcase with ⟨ha, rfl⟩ | ⟨ha, rfl⟩
      · simp [hq, ha]
      · simp [hq, ha]

/-- Witness for C7: the surviving follow-up of the concrete run is emitted
as a web task with id computed from its original position. -/
theorem c7_witness :
    SendTask.web "B" 6 ∈ followup_research_dispatcher_node
      { s0 with follow_up_queries := [⟨some "web", ""⟩, ⟨some "web", "B"⟩],
                number_of_ran_queries := 5 } :=
  (c7_dispatch_ids.2 _ _).mpr
    ⟨1, ⟨some "web", "B"⟩, by decide, by decide, Or.inr ⟨by decide, rfl⟩⟩

/-- A concrete state with a prior document result and one pending upload. -/
def c8state : OverallState :=
  { s0 with pdf_research_result := ["x"], uploaded_pdf_info := some [⟨some "d", some "p"⟩] }

/-- C8 counterexample: the document worker's returned list is the prior
`pdf_research_result` with the new block appended, so the concatenation
merge duplicates the prior entry instead of contributing only the new
block. -/
theorem c8_counterexample :
    (applyPdfUpdate c8state
        (pdf_research_node c8state fun _ => .ok "T")).pdf_research_result
      = ["x", "x", "Content from PDF \x27d\x27:\nT"]
    ∧ (["x", "x", "Content from PDF \x27d\x27:\nT"] : List String)
        ≠ ["x", "Content from PDF \x27d\x27:\nT"] := by
  decide

/-- C8 as amended: every result-list merge is ordered concatenation of the
node's returned value onto the prior sequence (so no prior entry is ever
removed); the Send-dispatched web and academic workers contribute exactly
their one new block; but the document worker returns the prior list with
its new blocks appended, so the merged sequence duplicates the prior
entries. -/
theorem c8_merge_concat :
    (∀ (s : OverallState) (st : WebSearchState) (txt : String) (srcs : List Source),
        (web_research st (.ok (txt, srcs))).map
            (fun u => (applyWebUpdate s u).web_research_result)
          = .ok (s.web_research_result ++ [txt]))
    ∧ (∀ (s : OverallState) (q : String) (tool : Except String String), q ≠ "" →
        (applyArxivUpdate s
            (arxiv_research_node ⟨some q, []⟩ tool)).arxiv_research_result
          = s.arxiv_research_result
              ++ [match tool with | .ok r => r | .error e => arxiv_error_msg q e])
    ∧ (∀ (s : OverallState) (extract : String → Except String String) (l : List PdfInfo),
        s.uploaded_pdf_info = some l → l ≠ [] →
        (applyPdfUpdate s (pdf_research_node s extract)).pdf_research_result
          = s.pdf_research_result ++ s.pdf_research_result
              ++ l.map (pdf_entry_block extract))
    ∧ (∀ (s : OverallState) (u : PdfUpdate),
        ∃ w, (applyPdfUpdate s u).pdf_research_result = s.pdf_research_result ++ w)
    ∧ (∀ (s : OverallState) (u : WebUpdate),
        ∃ w, (applyWebUpdate s u).web_research_result = s.web_research_result ++ w)
    ∧ (∀ (s : OverallState) (u : ArxivUpdate),
        ∃ w, (applyArxivUpdate s u).arxiv_research_result
          = s.arxiv_research_result ++ w) := by
  refine ⟨fun s st txt srcs => rfl, ?_, ?_,
    fun s u => ⟨u.pdf_research_result, rfl⟩,
    fun s u => ⟨u.web_research_result, rfl⟩,
    fun s u => ⟨u.arxiv_research_result, rfl⟩⟩
  · intro s q tool hq
    rcases tool with e | r
    · simp [arxiv_research_node, applyArxivUpdate, hq]
    · simp [arxiv_research_node, applyArxivUpdate, hq]
  · intro s extract l hl hne
    rcases l with _ | ⟨i, is⟩
    · exact absurd rfl hne
    · simp [pdf_research_node, applyPdfUpdate, hl, List.append_assoc]

/-- Witness for C8: a concrete Send-dispatched academic task contributes
exactly its one new block. -/
theorem c8_witness :
    (applyArxivUpdate s0
        (arxiv_research_node ⟨some "q", []⟩ (.ok "R"))).arxiv_research_result
      = s0.arxiv_research_result ++ ["R"] :=
  c8_merge_concat.2.1 s0 "q" (.ok "R") (by decide)
